import Mathlib

/-!
Shallow embedding of the timetrakt-chrome extension (src/background.js and
src/popup.js) and proofs about its specification.

JS numbers are modelled as rationals, JS objects (where generic key-value
semantics matters, namely for Object.assign) as association lists with
unique keys, and the mutable static fields of BadgeTicker as an explicit
state record threaded through step functions.  Network and timer callbacks
are modelled as events carrying their outcome.
-/

/-- Model of a JavaScript value, as far as this program needs. -/
inductive JSVal where
  | null : JSVal
  | bool : Bool → JSVal
  | num : ℚ → JSVal
  | str : String → JSVal
  | obj : List (String × JSVal) → JSVal

/-- A JavaScript object: association list of own enumerable properties. -/
abbrev JSObj := List (String × JSVal)

/-- Property lookup on a JS object. -/
def objGet (o : JSObj) (k : String) : Option JSVal :=
  (List.find? (fun kv => kv.1 == k) o).map Prod.snd

/-- Whether the object has the key. -/
def objHasKey (o : JSObj) (k : String) : Bool :=
  (List.find? (fun kv => kv.1 == k) o).isSome

/-- Property assignment: overwrite an existing key, or append a new one
(semantics of a single property write inside Object.assign). -/
def objSet (o : JSObj) (k : String) (v : JSVal) : JSObj :=
  if objHasKey o k then
    o.map (fun kv => if kv.1 == k then (k, v) else kv)
  else
    o ++ [(k, v)]

/-- Semantics of Object.assign(target, src): copy each own property of src
onto target in order. -/
def objAssign (target src : JSObj) : JSObj :=
  src.foldl (fun acc kv => objSet acc kv.1 kv.2) target

/-- A real JS object has no duplicate keys. -/
def KeysNodup (o : JSObj) : Prop :=
  (o.map Prod.fst).Nodup

theorem objGet_nil (k : String) : objGet [] k = none := rfl

theorem objGet_cons (hd : String × JSVal) (tl : JSObj) (k : String) :
    objGet (hd :: tl) k = if hd.1 = k then some hd.2 else objGet tl k := by
  by_cases h : hd.1 = k
  · simp [objGet, List.find?_cons_of_pos, h]
  · simp [objGet, List.find?_cons_of_neg, h]

theorem objGet_eq_none_of_not_mem (o : JSObj) (k : String)
    (h : k ∉ o.map Prod.fst) : objGet o k = none := by
  induction o with
  | nil => rfl
  | cons hd tl ih =>
    simp only [List.map_cons, List.mem_cons, not_or] at h
    rw [objGet_cons, if_neg (fun he => h.1 he.symm)]
    exact ih h.2

theorem objHasKey_iff (o : JSObj) (k : String) :
    objHasKey o k = true ↔ (objGet o k).isSome = true := by
  unfold objHasKey objGet
  cases List.find? (fun kv => kv.1 == k) o <;> simp

theorem objGet_map_replace_ne (o : JSObj) (k : String) (v : JSVal)
    (k' : String) (hne : k' ≠ k) :
    objGet (o.map (fun kv => if kv.1 == k then (k, v) else kv)) k'
      = objGet o k' := by
  induction o with
  | nil => rfl
  | cons hd tl ih =>
    rw [List.map_cons]
    by_cases hhd : hd.1 = k
    · rw [if_pos (by simpa using hhd), objGet_cons, objGet_cons,
        if_neg (fun he => hne he.symm),
        if_neg (fun he => hne (hhd ▸ he).symm)]
      exact ih
    · rw [if_neg (by simpa using hhd), objGet_cons, objGet_cons]
      by_cases hk2 : hd.1 = k'
      · rw [if_pos hk2, if_pos hk2]
      · rw [if_neg hk2, if_neg hk2]
        exact ih

theorem objGet_map_replace_eq (o : JSObj) (k : String) (v : JSVal)
    (hhas : objHasKey o k = true) :
    objGet (o.map (fun kv => if kv.1 == k then (k, v) else kv)) k
      = some v := by
  induction o with
  | nil => simp [objHasKey] at hhas
  | cons hd tl ih =>
    rw [List.map_cons]
    by_cases hhd : hd.1 = k
    · rw [if_pos (by simpa using hhd), objGet_cons, if_pos rfl]
    · rw [if_neg (by simpa using hhd), objGet_cons, if_neg hhd]
      refine ih ?_
      unfold objHasKey at hhas ⊢
      rwa [List.find?_cons_of_neg _ (by simpa using hhd)] at hhas

theorem objGet_objSet (o : JSObj) (k : String) (v : JSVal) (k' : String) :
    objGet (objSet o k v) k' = if k' = k then some v else objGet o k' := by
  unfold objSet
  by_cases hhas : objHasKey o k
  · rw [if_pos hhas]
    by_cases hk : k' = k
    · subst hk
      rw [if_pos rfl]
      exact objGet_map_replace_eq o k' v hhas
    · rw [if_neg hk]
      exact objGet_map_replace_ne o k v k' hk
  · rw [if_neg hhas]
    have hnone : objGet o k = none := by
      rcases h : objGet o k with _ | w
      · rfl
      · exact absurd ((objHasKey_iff o k).mpr (by simp [h])) hhas
    unfold objGet at hnone ⊢
    rw [List.find?_append]
    by_cases hk : k' = k
    · subst hk
      have : List.find? (fun kv => kv.1 == k') o = none := by
        cases hf : List.find? (fun kv => kv.1 == k') o
        · rfl
        · rw [hf] at hnone; simp at hnone
      rw [this, if_pos rfl]
      simp [List.find?]
    · rw [if_neg hk]
      have : List.find? (fun kv => kv.1 == k') [(k, v)] = none := by
        rw [List.find?_cons_of_neg _ (by simpa using fun he => hk he.symm)]
        rfl
      rw [this]
      cases List.find? (fun kv => kv.1 == k') o <;> simp [Option.or]

theorem objGet_objAssign (t src : JSObj) (h : KeysNodup src) (k : String) :
    objGet (objAssign t src) k = (objGet src k).or (objGet t k) := by
  induction src generalizing t with
  | nil => simp [objAssign, objGet_nil, Option.or]
  | cons hd tl ih =>
    have hnd : (hd.1 :: tl.map Prod.fst).Nodup := by
      simpa [KeysNodup] using h
    have h2 : KeysNodup tl := (List.nodup_cons.mp hnd).2
    have hnotin : hd.1 ∉ tl.map Prod.fst := (List.nodup_cons.mp hnd).1
    have hstep : objAssign t (hd :: tl) = objAssign (objSet t hd.1 hd.2) tl := rfl
    rw [hstep, ih (objSet t hd.1 hd.2) h2, objGet_cons, objGet_objSet]
    by_cases hk : k = hd.1
    · rw [if_pos hk, if_pos hk.symm,
        objGet_eq_none_of_not_mem tl k (by rw [hk]; exact hnotin)]
      rfl
    · rw [if_neg hk, if_neg (fun he => hk he.symm)]

/-! ## Timer state and BadgeTicker fields -/

/-- The project object nested inside an active task. -/
structure TaskProject where
  name : String
deriving DecidableEq

/-- The active_task object of a timer state. -/
structure ActiveTask where
  name : String
  project : TaskProject
deriving DecidableEq

/-- Timer data received from the server (shape of BadgeTicker.timerState
as initialized in init and consumed throughout background.js). -/
structure TimerState where
  started : Bool
  started_at : Option ℚ
  active_task : Option ActiveTask
  seconds_active : Option ℚ
  now : ℚ
deriving DecidableEq

/-- The mutable static fields of BadgeTicker. -/
structure BgState where
  timeOffset : ℚ
  timerState : TimerState
  badgeSecondUpdatesEnabled : Bool
deriving DecidableEq

/-- The fields set by BadgeTicker.init, where nowSec is Date.now() / 1000
at initialization time. -/
def initState (nowSec : ℚ) : BgState :=
  { timeOffset := 0
    timerState :=
      { started := false
        started_at := none
        active_task := none
        seconds_active := none
        now := nowSec }
    badgeSecondUpdatesEnabled := false }

/-- Encoding of the nested project object. -/
def projectToObj (p : TaskProject) : JSObj :=
  [("name", JSVal.str p.name)]

/-- Encoding of an active task object. -/
def taskToObj (t : ActiveTask) : JSObj :=
  [("name", JSVal.str t.name), ("project", JSVal.obj (projectToObj t.project))]

/-- Encoding of BadgeTicker.timerState as the JS object it is at runtime
(the five properties set in init and replaced wholesale by server data). -/
def stateToObj (s : TimerState) : JSObj :=
  [("started", JSVal.bool s.started),
   ("started_at", (s.started_at.map JSVal.num).getD JSVal.null),
   ("active_task", (s.active_task.map (fun t => JSVal.obj (taskToObj t))).getD JSVal.null),
   ("seconds_active", (s.seconds_active.map JSVal.num).getD JSVal.null),
   ("now", JSVal.num s.now)]

theorem stateToObj_keysNodup (s : TimerState) : KeysNodup (stateToObj s) := by
  unfold KeysNodup stateToObj
  simp

/-! ## Clock arithmetic (Math.floor / Math.round on JS numbers) -/

/-- Math.floor on a JS number. -/
def jsFloor (q : ℚ) : ℤ := ⌊q⌋

/-- Math.round on a JS number (rounds half away from minus infinity). -/
def jsRound (q : ℚ) : ℤ := ⌊q + 1 / 2⌋

theorem jsRound_intCast (n : ℤ) : jsRound (n : ℚ) = n := by
  unfold jsRound
  rw [add_comm, Int.floor_add_int]
  norm_num

theorem jsFloor_intCast_div_sixty (n : ℤ) : jsFloor ((n : ℚ) / 60) = n / 60 := by
  unfold jsFloor
  exact_mod_cast Rat.floor_intCast_div_natCast n 60

/-- Result of getTimerClockFaceText: the empty string returned for a
stopped timer, or the short/full clock face object. -/
inductive ClockFaceText where
  | emptyText : ClockFaceText
  | face (short full : String) : ClockFaceText
deriving DecidableEq

/-- Reading the short property of a clock face result. -/
def ClockFaceText.shortText : ClockFaceText → String
  | .emptyText => ""
  | .face s _ => s

/-- Reading the full property of a clock face result. -/
def ClockFaceText.fullText : ClockFaceText → String
  | .emptyText => ""
  | .face _ f => f

/-- Zero padding applied to minute and second strings of length 1. -/
def padClock (s : String) : String :=
  if s.length = 1 then "0" ++ s else s

/-- BadgeTicker.getTimerClockFaceText, given the value of Date.now() / 1000.
A null started_at coerces to 0 in the JS subtraction. -/
def getTimerClockFaceText (st : BgState) (localUnix : ℚ) : ClockFaceText :=
  if !st.timerState.started then
    ClockFaceText.emptyText
  else
    let nowUnix : ℚ := localUnix + st.timeOffset
    let thenUnix : ℚ := (st.timerState.started_at).getD 0
    let totalSecondsActive : ℤ := jsRound (nowUnix - thenUnix)
    let totalMinutes : ℤ := jsFloor ((totalSecondsActive : ℚ) / 60)
    let totalHours : ℤ := jsFloor ((totalMinutes : ℚ) / 60)
    let displayHours : ℤ := totalHours
    let displayMinutes : ℤ := totalMinutes - totalHours * 60
    let displaySeconds : ℤ :=
      jsRound ((totalSecondsActive : ℚ) - ((totalHours * 60 + displayMinutes) * 60 : ℤ))
    let strH : String := toString displayHours
    let strM : String := padClock (toString displayMinutes)
    let strS : String := padClock (toString displaySeconds)
    let strHoursMins : String := strH ++ ":" ++ strM
    let strHoursMinsSecs : String := strHoursMins ++ ":" ++ strS
    ClockFaceText.face strHoursMins strHoursMinsSecs

/-! ## Badge parcel pipeline -/

/-- The updateParcel object threaded through the tick functions.  The
textFull property only exists once setUpdateObjTexts ran on a started
timer, hence the option. -/
structure BadgeParcel where
  text : String
  color : String
  tooltip : String
  textFull : Option String
deriving DecidableEq

/-- The parcel literal built at the top of tickUiUpdate and tickFullUpdate. -/
def freshParcel : BadgeParcel :=
  { text := "", color := "#d352ad", tooltip := "", textFull := none }

/-- BadgeTicker.setUpdateObjTexts, given the value of Date.now() / 1000. -/
def setUpdateObjTexts (st : BgState) (localUnix : ℚ) (p : BadgeParcel) :
    BadgeParcel :=
  if !st.timerState.started then
    { p with text := "", tooltip := "Stopped" }
  else
    let tooltipTask : String :=
      match st.timerState.active_task with
      | some t => t.name
      | none => "No active task"
    let clockText := getTimerClockFaceText st localUnix
    let p1 : BadgeParcel :=
      { p with
        tooltip := tooltipTask
        text := clockText.shortText
        textFull := some clockText.fullText }
    let tooltipJoined : String :=
      if p1.tooltip ≠ "" then p1.tooltip ++ "\r\n" else p1.tooltip
    { p1 with tooltip := tooltipJoined ++ clockText.fullText }

/-- The badge configuration pushed to the chrome.browserAction APIs. -/
structure BadgeConfig where
  text : String
  color : String
  title : String
deriving DecidableEq

/-- BadgeTicker.applyBadgeConfig: the calls made to the chrome APIs, with
the or-default fallbacks of the source. -/
def applyBadgeConfig (p : BadgeParcel) : BadgeConfig :=
  { text := if p.text = "" then "" else p.text
    color := if p.color = "" then "#d352ad" else p.color
    title := if p.tooltip ≠ "" then "Timetrakt - " ++ p.tooltip else "Timetrakt" }

/-- BadgeTicker.handleTimerState without an updateParcel: store the server
state and recompute the clock offset from Date.now() / 1000. -/
def handleTimerState (remote : TimerState) (localUnix : ℚ) (st : BgState) :
    BgState :=
  { st with timerState := remote, timeOffset := remote.now - localUnix }

/-! ## Popup rendering -/

/-- What updatePopupUi writes into one popup document: the text contents
of the TXT-- classes and the visibility of the TOG-- classes. -/
structure PopupRender where
  faceText : String
  taskText : String
  projectText : String
  btnStartVisible : Bool
  btnSaveVisible : Bool
  btnDeleteVisible : Bool
deriving DecidableEq

/-- BadgeTicker.updatePopupUi on a single popup view. -/
def updatePopupUi (st : BgState) (p : BadgeParcel) : PopupRender :=
  let base : PopupRender :=
    if st.timerState.started then
      { faceText := (p.textFull).getD ""
        taskText := ""
        projectText := ""
        btnStartVisible := false
        btnSaveVisible := true
        btnDeleteVisible := true }
    else
      { faceText := "Stopped"
        taskText := ""
        projectText := ""
        btnStartVisible := true
        btnSaveVisible := false
        btnDeleteVisible := false }
  match st.timerState.active_task with
  | some t =>
      { base with taskText := t.name, projectText := t.project.name }
  | none =>
      { base with taskText := "", projectText := "", btnSaveVisible := false }

/-! ## Network and tick functions -/

/-- Outcome of an HTTP call as observed by the promise chain. -/
inductive NetResult where
  | ok (state : TimerState)
  | err
deriving DecidableEq

/-- An HTTP request issued through the axios wrapper. -/
inductive HttpRequest where
  | get (path : String)
  | post (path : String) (body : JSObj)

/-- TraktApi.postTimerStateUpdate: merge the cached timer state with the
update parcel into a fresh object and POST it; the BadgeTicker fields are
read but not written. -/
def postTimerStateUpdate (st : BgState) (parcel : JSObj) :
    HttpRequest × BgState :=
  (HttpRequest.post "/v1/timer"
      (objAssign (objAssign [] (stateToObj st.timerState)) parcel),
   st)

/-- BadgeTicker.tickUiUpdate: build a parcel, apply it to the badge only
when badgeSecondUpdatesEnabled, and render the popup.  The BadgeTicker
fields are not modified. -/
def tickUiUpdate (localUnix : ℚ) (st : BgState) :
    Option BadgeConfig × PopupRender :=
  let updateParcel := setUpdateObjTexts st localUnix freshParcel
  (if st.badgeSecondUpdatesEnabled then some (applyBadgeConfig updateParcel)
   else none,
   updatePopupUi st updateParcel)

/-- BadgeTicker.tickFullUpdate: fetch the server state; on success store it
(handleTimerState fills the parcel) and enable per-second badge updates,
on failure set the error parcel and disable them; always apply the parcel
to the badge at the end of the promise chain. -/
def tickFullUpdate (res : NetResult) (localUnix : ℚ) (st : BgState) :
    BgState × BadgeConfig :=
  match res with
  | NetResult.ok remote =>
      let st1 := handleTimerState remote localUnix st
      let updateParcel := setUpdateObjTexts st1 localUnix freshParcel
      let st2 := { st1 with badgeSecondUpdatesEnabled := true }
      (st2, applyBadgeConfig updateParcel)
  | NetResult.err =>
      let updateParcel : BadgeParcel :=
        { freshParcel with
          text := "!", color := "#e74c3c", tooltip := "Communication error" }
      ({ st with badgeSecondUpdatesEnabled := false },
       applyBadgeConfig updateParcel)

/-! ## Popup messages -/

/-- The buttons wired up in popup.js: element id and the message its click
handler posts to the background. -/
def popupButtons : List (String × String) :=
  [("btn-start", "start"),
   ("btn-save", "save"),
   ("btn-delete", "delete"),
   ("btn-full-refresh", "refetch")]

/-- The HTTP request the background's onMessage listener issues for a
given popup message (none for hello and for unmatched messages). -/
def messageRequest (msg : String) (st : BgState) : Option HttpRequest :=
  if msg = "hello" then none
  else if msg = "start" then
    some (postTimerStateUpdate st [("started", JSVal.bool true)]).1
  else if msg = "delete" then
    some (postTimerStateUpdate st [("started", JSVal.bool false)]).1
  else if msg = "save" then
    some (postTimerStateUpdate st [("finish", JSVal.bool true)]).1
  else none

/-- State transition of the onMessage listener: on a start/delete/save
message, a resolved POST routes the response through handleTimerState and
a rejected POST only logs; hello and unmatched messages leave the state
alone (tickUiUpdate reads but never writes the fields). -/
def messageStep (msg : String) (res : NetResult) (localUnix : ℚ)
    (st : BgState) : BgState :=
  if msg = "start" ∨ msg = "delete" ∨ msg = "save" then
    match res with
    | NetResult.ok remote => handleTimerState remote localUnix st
    | NetResult.err => st
  else st

/-! ## Events and scheduling -/

/-- An event hitting the background page: a popup message, a full-update
timer firing (with the outcome of its fetch), or a ui-update timer firing. -/
inductive BgEvent where
  | message (msg : String) (res : NetResult) (localUnix : ℚ)
  | fullUpdate (res : NetResult) (localUnix : ℚ)
  | uiUpdate (localUnix : ℚ)

/-- State transition for one background event. -/
def stepState (e : BgEvent) (st : BgState) : BgState :=
  match e with
  | BgEvent.message msg res localUnix => messageStep msg res localUnix st
  | BgEvent.fullUpdate res localUnix => (tickFullUpdate res localUnix st).1
  | BgEvent.uiUpdate _ => st

/-- Whether an event is a successful full update (the only event that can
re-enable per-second badge updates). -/
def BgEvent.isOkFullUpdate : BgEvent → Prop
  | BgEvent.fullUpdate (NetResult.ok _) _ => True
  | _ => False

/-- Running a list of events through the state machine. -/
def runEvents (es : List BgEvent) (st : BgState) : BgState :=
  es.foldl (fun s e => stepState e s) st

/-- The constant from line 1 of background.js. -/
def FULL_UPDATE_INTERVAL_MINS : ℕ := 1

/-- Millisecond period of the first setInterval in init (tickFullUpdate). -/
def fullUpdateIntervalMs : ℕ := 1000 * 60 * FULL_UPDATE_INTERVAL_MINS

/-- Millisecond period of the second setInterval in init (tickUiUpdate). -/
def uiUpdateIntervalMs : ℕ := 1000

/-- The periodic tickers registered by init: callback name and period. -/
def scheduledTickers : List (String × ℕ) :=
  [("tickFullUpdate", fullUpdateIntervalMs),
   ("tickUiUpdate", uiUpdateIntervalMs)]

/-! ## Sample data used by witness theorems -/

/-- A concrete active task. -/
def sampleTask : ActiveTask :=
  { name := "Write report", project := { name := "Acme" } }

/-- A concrete started server state. -/
def sampleRemote : TimerState :=
  { started := true
    started_at := some 100
    active_task := some sampleTask
    seconds_active := some 5
    now := 105 }

/-- A concrete background state with a started timer. -/
def sampleStartedState : BgState :=
  { timeOffset := 5
    timerState := sampleRemote
    badgeSecondUpdatesEnabled := true }

/-! ## Claim theorems -/

/-- Claim C6: the scheduler runs exactly two periodic tickers, tickFullUpdate
every 1000 * 60 * FULL_UPDATE_INTERVAL_MINS = 60000 milliseconds with
FULL_UPDATE_INTERVAL_MINS = 1, and tickUiUpdate every 1000 milliseconds. -/
theorem claim_C6 :
    scheduledTickers.length = 2 ∧
    scheduledTickers = [("tickFullUpdate", 60000), ("tickUiUpdate", 1000)] ∧
    fullUpdateIntervalMs = 1000 * 60 * FULL_UPDATE_INTERVAL_MINS ∧
    FULL_UPDATE_INTERVAL_MINS = 1 ∧
    uiUpdateIntervalMs = 1000 :=
  ⟨rfl, rfl, rfl, rfl, rfl⟩

/-- Claim C4: whenever the status fetch in tickFullUpdate fails, the badge is
set to text "!", background color "#e74c3c" and a title containing
"Communication error", and the only state change is disabling per-second
badge updates: no retry or other recovery happens. -/
theorem claim_C4 (st : BgState) (localUnix : ℚ) :
    tickFullUpdate NetResult.err localUnix st =
      ({ st with badgeSecondUpdatesEnabled := false },
       { text := "!"
         color := "#e74c3c"
         title := "Timetrakt - " ++ "Communication error" }) :=
  rfl

/-- Claim C5: handleTimerState stores exactly the server response and the
offset remote.now minus local time; both cache-updating success paths (full
refresh and the three action POSTs) produce exactly that cache, and the
failure paths leave the cached fields unchanged. -/
theorem claim_C5 (remote : TimerState) (localUnix : ℚ) (st : BgState) :
    (handleTimerState remote localUnix st).timerState = remote ∧
    (handleTimerState remote localUnix st).timeOffset = remote.now - localUnix ∧
    (tickFullUpdate (NetResult.ok remote) localUnix st).1.timerState = remote ∧
    (tickFullUpdate (NetResult.ok remote) localUnix st).1.timeOffset
      = remote.now - localUnix ∧
    (∀ msg, msg = "start" ∨ msg = "delete" ∨ msg = "save" →
       messageStep msg (NetResult.ok remote) localUnix st
         = handleTimerState remote localUnix st) ∧
    (tickFullUpdate NetResult.err localUnix st).1.timerState = st.timerState ∧
    (tickFullUpdate NetResult.err localUnix st).1.timeOffset = st.timeOffset ∧
    (∀ msg, messageStep msg NetResult.err localUnix st = st) := by
  refine ⟨rfl, rfl, rfl, rfl, ?_, rfl, rfl, ?_⟩
  · intro msg hmsg
    unfold messageStep
    rw [if_pos hmsg]
  · intro msg
    unfold messageStep
    split <;> rfl

/-- Witness for claim C5 at a concrete message and state. -/
theorem claim_C5_witness :
    messageStep "start" (NetResult.ok sampleRemote) 0 (initState 0)
      = handleTimerState sampleRemote 0 (initState 0) :=
  (claim_C5 sampleRemote 0 (initState 0)).2.2.2.2.1 "start" (Or.inl rfl)

/-- Claim C9: when a start, save or delete POST rejects, handleTimerState is
not invoked and the cached state is unchanged: the state after the failed
action equals the state before it. -/
theorem claim_C9 (msg : String) (localUnix : ℚ) (st : BgState)
    (h : msg = "start" ∨ msg = "delete" ∨ msg = "save") :
    messageStep msg NetResult.err localUnix st = st ∧
    (messageStep msg NetResult.err localUnix st).timerState = st.timerState ∧
    (messageStep msg NetResult.err localUnix st).timeOffset = st.timeOffset := by
  unfold messageStep
  rw [if_pos h]
  exact ⟨rfl, rfl, rfl⟩

/-- Witness for claim C9 on a failed save from the sample state. -/
theorem claim_C9_witness :
    messageStep "save" NetResult.err 0 sampleStartedState = sampleStartedState ∧
    (messageStep "save" NetResult.err 0 sampleStartedState).timerState
      = sampleStartedState.timerState ∧
    (messageStep "save" NetResult.err 0 sampleStartedState).timeOffset
      = sampleStartedState.timeOffset :=
  claim_C9 "save" 0 sampleStartedState (Or.inr (Or.inr rfl))

/-- Claim C10: any popup message other than hello, start, delete and save (in
particular the refetch message of the full-refresh button) matches no branch
of the onMessage listener: no HTTP request is issued and timerState,
timeOffset and badgeSecondUpdatesEnabled are unchanged. -/
theorem claim_C10 (msg : String) (st : BgState)
    (h : msg ∉ (["hello", "start", "delete", "save"] : List String)) :
    messageRequest msg st = none ∧
    (∀ res localUnix, messageStep msg res localUnix st = st) ∧
    (∀ res localUnix,
      (messageStep msg res localUnix st).timerState = st.timerState ∧
      (messageStep msg res localUnix st).timeOffset = st.timeOffset ∧
      (messageStep msg res localUnix st).badgeSecondUpdatesEnabled
        = st.badgeSecondUpdatesEnabled) := by
  simp only [List.mem_cons, List.not_mem_nil, or_false, not_or] at h
  obtain ⟨h1, h2, h3, h4⟩ := h
  have hnot : ¬(msg = "start" ∨ msg = "delete" ∨ msg = "save") := by
    rintro (hc | hc | hc)
    · exact h2 hc
    · exact h3 hc
    · exact h4 hc
  have hstep : ∀ res localUnix, messageStep msg res localUnix st = st := by
    intro res localUnix
    unfold messageStep
    rw [if_neg hnot]
  refine ⟨?_, hstep, ?_⟩
  · unfold messageRequest
    rw [if_neg h1, if_neg h2, if_neg h3, if_neg h4]
  · intro res localUnix
    rw [hstep res localUnix]
    exact ⟨rfl, rfl, rfl⟩

/-- Witness for claim C10 at the refetch message of the full-refresh button. -/
theorem claim_C10_witness :
    messageRequest "refetch" sampleStartedState = none ∧
    (∀ res localUnix,
      messageStep "refetch" res localUnix sampleStartedState
        = sampleStartedState) ∧
    (∀ res localUnix,
      (messageStep "refetch" res localUnix sampleStartedState).timerState
        = sampleStartedState.timerState ∧
      (messageStep "refetch" res localUnix sampleStartedState).timeOffset
        = sampleStartedState.timeOffset ∧
      (messageStep "refetch" res localUnix sampleStartedState).badgeSecondUpdatesEnabled
        = sampleStartedState.badgeSecondUpdatesEnabled) :=
  claim_C10 "refetch" sampleStartedState (by decide)

/-- Claim C2: postTimerStateUpdate POSTs to the timer resource the merge of
the cached state S and the parcel P in which a key named in P takes P value
and every other key keeps its S value, and the cached state is not
mutated by the merge. -/
theorem claim_C2 (st : BgState) (parcel : JSObj) (hp : KeysNodup parcel) :
    (postTimerStateUpdate st parcel).1 = HttpRequest.post "/v1/timer"
      (objAssign (objAssign [] (stateToObj st.timerState)) parcel) ∧
    (∀ k, objGet (objAssign (objAssign [] (stateToObj st.timerState)) parcel) k
        = (objGet parcel k).or (objGet (stateToObj st.timerState) k)) ∧
    (postTimerStateUpdate st parcel).2 = st := by
  refine ⟨rfl, ?_, rfl⟩
  intro k
  rw [objGet_objAssign _ _ hp,
    objGet_objAssign _ _ (stateToObj_keysNodup st.timerState), objGet_nil,
    Option.or_none]

/-- Witness for claim C2 on the save parcel: the finish key comes from the
parcel and the merge is issued from an unmutated cache. -/
theorem claim_C2_witness :
    objGet (objAssign (objAssign []
        (stateToObj (initState 0).timerState)) [("finish", JSVal.bool true)])
        "finish"
      = (objGet [("finish", JSVal.bool true)] "finish").or
          (objGet (stateToObj (initState 0).timerState) "finish") :=
  (claim_C2 (initState 0) [("finish", JSVal.bool true)]
    (by unfold KeysNodup; decide)).2.1 "finish"

/-- Claim C1 counterexample: the full-refresh button of the popup posts the
message refetch, and that message matches no branch of the background
listener and produces no server request, refuting that no popup button
message fails to produce one. -/
theorem claim_C1_counterexample :
    ("btn-full-refresh", "refetch") ∈ popupButtons ∧
    messageRequest "refetch" (initState 0) = none := by
  constructor
  · decide
  · rfl

/-- Claim C1 amended: each of the three action buttons (start, save, delete)
posts a message on which the background issues a POST to the timer resource
whose body is the cached state merged with started true, finish true and
started false respectively; the fourth popup button (full refresh) posts
refetch, which produces no request. -/
theorem claim_C1_amended (st : BgState) :
    messageRequest "start" st = some (HttpRequest.post "/v1/timer"
      (objAssign (objAssign [] (stateToObj st.timerState))
        [("started", JSVal.bool true)])) ∧
    messageRequest "delete" st = some (HttpRequest.post "/v1/timer"
      (objAssign (objAssign [] (stateToObj st.timerState))
        [("started", JSVal.bool false)])) ∧
    messageRequest "save" st = some (HttpRequest.post "/v1/timer"
      (objAssign (objAssign [] (stateToObj st.timerState))
        [("finish", JSVal.bool true)])) ∧
    (∀ v k, objGet (objAssign (objAssign [] (stateToObj st.timerState))
        [("started", JSVal.bool v)]) k
      = (objGet [("started", JSVal.bool v)] k).or
          (objGet (stateToObj st.timerState) k)) ∧
    (∀ k, objGet (objAssign (objAssign [] (stateToObj st.timerState))
        [("finish", JSVal.bool true)]) k
      = (objGet [("finish", JSVal.bool true)] k).or
          (objGet (stateToObj st.timerState) k)) ∧
    messageRequest "refetch" st = none := by
  refine ⟨rfl, rfl, rfl, ?_, ?_, rfl⟩
  · intro v k
    rw [objGet_objAssign _ _ (by unfold KeysNodup; simp),
      objGet_objAssign _ _ (stateToObj_keysNodup st.timerState), objGet_nil,
      Option.or_none]
  · intro k
    rw [objGet_objAssign _ _ (by unfold KeysNodup; simp),
      objGet_objAssign _ _ (stateToObj_keysNodup st.timerState), objGet_nil,
      Option.or_none]

/-- One background event that is not a successful full update cannot switch
badgeSecondUpdatesEnabled on. -/
theorem flag_false_preserved (e : BgEvent) (st : BgState)
    (he : ¬ e.isOkFullUpdate)
    (hf : st.badgeSecondUpdatesEnabled = false) :
    (stepState e st).badgeSecondUpdatesEnabled = false := by
  cases e with
  | message msg res localUnix =>
      show (messageStep msg res localUnix st).badgeSecondUpdatesEnabled = false
      unfold messageStep
      split
      · cases res with
        | ok remote => exact hf
        | err => exact hf
      · exact hf
  | fullUpdate res localUnix =>
      cases res with
      | ok remote => exact absurd trivial he
      | err => rfl
  | uiUpdate localUnix => exact hf

/-- A run of events without a successful full update cannot switch
badgeSecondUpdatesEnabled on. -/
theorem runEvents_flag_false (es : List BgEvent) (st : BgState)
    (h : ∀ e ∈ es, ¬ e.isOkFullUpdate)
    (hf : st.badgeSecondUpdatesEnabled = false) :
    (runEvents es st).badgeSecondUpdatesEnabled = false := by
  induction es generalizing st with
  | nil => exact hf
  | cons e es ih =>
      exact ih (stepState e st)
        (fun x hx => h x (List.mem_cons_of_mem e hx))
        (flag_false_preserved e st (h e (List.mem_cons_self e es)) hf)

/-- Claim C8: after a failed tickFullUpdate, badgeSecondUpdatesEnabled is
false and stays false over any events that contain no successful full
update, so every tickUiUpdate in that span applies no badge config; a
successful tickFullUpdate sets the flag back to true. -/
theorem claim_C8 (st : BgState) (localUnix : ℚ) (es : List BgEvent)
    (h : ∀ e ∈ es, ¬ e.isOkFullUpdate) :
    (runEvents es (stepState (BgEvent.fullUpdate NetResult.err localUnix)
        st)).badgeSecondUpdatesEnabled = false ∧
    (∀ L2, (tickUiUpdate L2 (runEvents es
        (stepState (BgEvent.fullUpdate NetResult.err localUnix) st))).1
      = none) ∧
    (∀ remote L2 st2, (tickFullUpdate (NetResult.ok remote) L2
        st2).1.badgeSecondUpdatesEnabled = true) := by
  have hflag : (runEvents es (stepState
      (BgEvent.fullUpdate NetResult.err localUnix) st)).badgeSecondUpdatesEnabled
      = false :=
    runEvents_flag_false es _ h rfl
  refine ⟨hflag, ?_, fun remote L2 st2 => rfl⟩
  intro L2
  unfold tickUiUpdate
  rw [hflag]
  rfl

/-- Witness for claim C8: a failed full update from the sample state (whose
flag is on) turns the flag off and the next ui tick applies no badge. -/
theorem claim_C8_witness :
    (runEvents [] (stepState (BgEvent.fullUpdate NetResult.err 0)
        sampleStartedState)).badgeSecondUpdatesEnabled = false ∧
    (∀ L2, (tickUiUpdate L2 (runEvents [] (stepState
        (BgEvent.fullUpdate NetResult.err 0) sampleStartedState))).1 = none) ∧
    (∀ remote L2 st2, (tickFullUpdate (NetResult.ok remote) L2
        st2).1.badgeSecondUpdatesEnabled = true) :=
  claim_C8 sampleStartedState 0 []
    (fun e he => absurd he (List.not_mem_nil e))

/-- Claim C7: tickUiUpdate renders the cached state into the popup panel:
started shows the full clock face, the save and delete buttons and no start
button; stopped shows the text Stopped, the start button and no save or
delete buttons; a present active task fills the task and project texts and
an absent one clears them and hides the save button even when started. -/
theorem claim_C7 (st : BgState) (localUnix : ℚ) :
    (st.timerState.started = true →
      ((tickUiUpdate localUnix st).2.faceText
          = (getTimerClockFaceText st localUnix).fullText ∧
       (tickUiUpdate localUnix st).2.btnDeleteVisible = true ∧
       (tickUiUpdate localUnix st).2.btnStartVisible = false ∧
       (tickUiUpdate localUnix st).2.btnSaveVisible
          = st.timerState.active_task.isSome)) ∧
    (st.timerState.started = false →
      ((tickUiUpdate localUnix st).2.faceText = "Stopped" ∧
       (tickUiUpdate localUnix st).2.btnStartVisible = true ∧
       (tickUiUpdate localUnix st).2.btnSaveVisible = false ∧
       (tickUiUpdate localUnix st).2.btnDeleteVisible = false)) ∧
    (∀ t, st.timerState.active_task = some t →
      ((tickUiUpdate localUnix st).2.taskText = t.name ∧
       (tickUiUpdate localUnix st).2.projectText = t.project.name)) ∧
    (st.timerState.active_task = none →
      ((tickUiUpdate localUnix st).2.taskText = "" ∧
       (tickUiUpdate localUnix st).2.projectText = "" ∧
       (tickUiUpdate localUnix st).2.btnSaveVisible = false)) := by
  cases hstart : st.timerState.started <;>
    cases htask : st.timerState.active_task <;>
      simp [tickUiUpdate, updatePopupUi, setUpdateObjTexts, hstart, htask]

/-- Witness for claim C7 on the sample started state with an active task. -/
theorem claim_C7_witness :
    (tickUiUpdate 3756 sampleStartedState).2.faceText
        = (getTimerClockFaceText sampleStartedState 3756).fullText ∧
    (tickUiUpdate 3756 sampleStartedState).2.btnDeleteVisible = true ∧
    (tickUiUpdate 3756 sampleStartedState).2.btnStartVisible = false ∧
    (tickUiUpdate 3756 sampleStartedState).2.btnSaveVisible
        = sampleStartedState.timerState.active_task.isSome :=
  (claim_C7 sampleStartedState 3756).1 rfl

/-- Rounding an integer difference of casts is exact. -/
theorem jsRound_intCast_sub (p q : ℤ) :
    jsRound ((p : ℚ) - (q : ℚ)) = p - q := by
  rw [show ((p : ℚ) - (q : ℚ)) = ((p - q : ℤ) : ℚ) by push_cast; ring,
    jsRound_intCast]

/-- Claim C3: for a started timer with integer started_at and nonnegative
rounded offset-corrected elapsed seconds n, getTimerClockFaceText returns
the clock face whose full text is H:MM:SS and short text is H:MM with MM
and SS zero padded, 0 <= MM < 60, 0 <= SS < 60 and
H * 3600 + MM * 60 + SS = n. -/
theorem claim_C3 (st : BgState) (localUnix a : ℚ)
    (hstart : st.timerState.started = true)
    (ha : st.timerState.started_at = some a)
    (haInt : a.den = 1)
    (hn : 0 ≤ jsRound (localUnix + st.timeOffset - a)) :
    ∃ h m s : ℤ, 0 ≤ h ∧ 0 ≤ m ∧ m < 60 ∧ 0 ≤ s ∧ s < 60 ∧
      h * 3600 + m * 60 + s = jsRound (localUnix + st.timeOffset - a) ∧
      getTimerClockFaceText st localUnix =
        ClockFaceText.face
          (toString h ++ ":" ++ padClock (toString m))
          (toString h ++ ":" ++ padClock (toString m) ++ ":"
            ++ padClock (toString s)) := by
  refine ⟨jsRound (localUnix + st.timeOffset - a) / 60 / 60,
    jsRound (localUnix + st.timeOffset - a) / 60
      - jsRound (localUnix + st.timeOffset - a) / 60 / 60 * 60,
    jsRound (localUnix + st.timeOffset - a)
      - (jsRound (localUnix + st.timeOffset - a) / 60 / 60 * 60
        + (jsRound (localUnix + st.timeOffset - a) / 60
          - jsRound (localUnix + st.timeOffset - a) / 60 / 60 * 60)) * 60,
    by omega, by omega, by omega, by omega, by omega, by omega, ?_⟩
  unfold getTimerClockFaceText
  rw [hstart, ha]
  simp only [Bool.not_true, Option.getD_some]
  rw [if_neg (by simp)]
  simp only [jsFloor_intCast_div_sixty, jsRound_intCast_sub]

/-- Witness for claim C3: one hour, one minute and one second elapsed on the
sample state (local time 3756, offset 5, started at 100). -/
theorem claim_C3_witness :
    ∃ h m s : ℤ, 0 ≤ h ∧ 0 ≤ m ∧ m < 60 ∧ 0 ≤ s ∧ s < 60 ∧
      h * 3600 + m * 60 + s
        = jsRound (3756 + sampleStartedState.timeOffset - 100) ∧
      getTimerClockFaceText sampleStartedState 3756 =
        ClockFaceText.face
          (toString h ++ ":" ++ padClock (toString m))
          (toString h ++ ":" ++ padClock (toString m) ++ ":"
            ++ padClock (toString s)) :=
  claim_C3 sampleStartedState 3756 100 rfl rfl (by norm_num)
    (by
      rw [show (3756 : ℚ) + sampleStartedState.timeOffset - 100
          = ((3661 : ℤ) : ℚ) by norm_num [sampleStartedState, sampleRemote],
        jsRound_intCast]
      norm_num)
